import Mathlib

/-!
Shallow embedding of `src/calorie_bot.py` (a Telegram health-tracking bot).

Conventions of the embedding:
* Python floats are modelled as exact rationals (`ℚ`); Python ints as `ℤ`.
* Python `int(x)` truncates a float toward zero; this is `pyInt` below.
* Python `//` on nonnegative ints is `Int.fdiv` (floor division).
* Python `str.lower()` is modelled on the ASCII and Cyrillic ranges that the
  program's keyword tables use (`pyLower`).
* Timestamp labels (`current_time()`) are opaque strings passed in as `now`.
* The aiogram transport layer is outside the model: each handler is embedded
  as a function from the profile state (and the already-split message
  arguments) to the new profile state plus whatever it computes.
-/

namespace CalorieBot

set_option maxRecDepth 8192
set_option exponentiation.threshold 2048


/-- Python `int()` applied to a real value: truncation toward zero.
Built on `Rat.floor` so that it kernel-evaluates. -/
def pyInt (q : ℚ) : ℤ := if 0 ≤ q then q.floor else -((-q).floor)

/-- Python `str.lower()` on one character, for the ASCII letters and the
Cyrillic letters appearing in the program's keyword tables. -/
def pyLowerChar (c : Char) : Char :=
  if 'A' ≤ c ∧ c ≤ 'Z' then Char.ofNat (c.toNat + 32)
  else if 0x410 ≤ c.toNat ∧ c.toNat ≤ 0x42F then Char.ofNat (c.toNat + 32)
  else if c.toNat = 0x401 then Char.ofNat 0x451
  else c

/-- Python `str.lower()` (see `pyLowerChar`). -/
def pyLower (s : String) : String := ⟨s.data.map pyLowerChar⟩

/-- Python's whitespace class, as used by `str.strip()` and accepted around
numerals by `float()`: tab through carriage return (9–13), the ASCII
separators 28–31, space, NEL (0x85), NBSP (0xA0), and the Unicode space
characters (U+1680, U+2000–U+200A, U+2028, U+2029, U+202F, U+205F, U+3000). -/
def pyIsSpace (c : Char) : Bool :=
  let n := c.toNat
  decide ((9 ≤ n ∧ n ≤ 13) ∨ (28 ≤ n ∧ n ≤ 31) ∨ n = 32 ∨ n = 0x85 ∨ n = 0xA0 ∨
    n = 0x1680 ∨ (0x2000 ≤ n ∧ n ≤ 0x200A) ∨ n = 0x2028 ∨ n = 0x2029 ∨
    n = 0x202F ∨ n = 0x205F ∨ n = 0x3000)

/-- Python `str.strip()`: drop leading and trailing whitespace (`pyIsSpace`). -/
def pyStrip (s : String) : String :=
  ⟨((s.data.dropWhile pyIsSpace).reverse.dropWhile pyIsSpace).reverse⟩

/-- Substring test helper: `pat` is a prefix of `s` (on character lists). -/
def charsStartsWith : List Char → List Char → Bool
  | [], _ => true
  | _ :: _, [] => false
  | p :: ps, c :: cs => p == c && charsStartsWith ps cs

/-- Substring test helper: `pat` occurs somewhere inside `s`. -/
def charsContainsSub (pat : List Char) : List Char → Bool
  | [] => pat.isEmpty
  | c :: rest => charsStartsWith pat (c :: rest) || charsContainsSub pat rest

/-- Python `pat in s` substring containment. -/
def pyIn (pat s : String) : Bool := charsContainsSub pat.data s.data

/-- Embeds `calculate_water_norm` (src/calorie_bot.py:98–111): daily water target.
`weight * 30` plus `500` per complete 30-minute activity block plus a heat
bonus of `500` when `temp and temp > 25` (Python truthiness: a known
temperature of exactly `0.0` is falsy and short-circuits to no bonus). -/
def calculate_water_norm (weight : ℚ) (activity : ℤ) (temp : Option ℚ) : ℤ :=
  let base_amount := weight * 30
  let activity_bonus := (Int.fdiv activity 30) * 500
  let heat_bonus : ℤ :=
    match temp with
    | none => 0
    | some t => if t ≠ 0 ∧ 25 < t then 500 else 0
  pyInt (base_amount + (activity_bonus : ℚ) + (heat_bonus : ℚ))

/-- Embeds `calculate_calorie_norm` (src/calorie_bot.py:114–137): Mifflin–St Jeor
daily calorie target. `if manual:` is Python truthiness, so a manual value
of `0` falls through to the formula. -/
def calculate_calorie_norm (weight : ℚ) (height age : ℤ) (gender : String)
    (activity : ℤ) (manual : Option ℤ) : ℤ :=
  let bmr : ℚ := 10 * weight + 6.25 * (height : ℚ) - 5 * (age : ℚ) +
    (if gender = "male" then 5 else -161)
  let multiplier : ℚ := if 60 ≤ activity then 1.55 else if 30 ≤ activity then 1.375 else 1.2
  match manual with
  | some m => if m = 0 then pyInt (bmr * multiplier) else m
  | none => pyInt (bmr * multiplier)

/-- Embeds `WorkoutCalculator.MET_VALUES` (src/calorie_bot.py:144–157). -/
def MET_VALUES : List (String × ℚ) :=
  [("бег", 10.0), ("run", 10.0),
   ("ходьба", 4.5), ("walk", 4.5),
   ("велосипед", 8.0), ("cycling", 8.0),
   ("плавание", 9.5), ("swimming", 9.5),
   ("зал", 6.5), ("gym", 6.5),
   ("йога", 3.5), ("yoga", 3.5)]

/-- Embeds `WorkoutCalculator.calculate_burned` (src/calorie_bot.py:159–166):
`int(MET * weight_kg * minutes / 60)` with MET looked up case-insensitively
and defaulting to `7.0`. -/
def calculate_burned (exercise : String) (minutes : ℤ) (weight_kg : ℚ) : ℤ :=
  pyInt ((List.lookup (pyLower exercise) MET_VALUES).getD 7.0 * weight_kg * ((minutes : ℚ) / 60))

/-- Embeds `WorkoutCalculator.water_bonus` (src/calorie_bot.py:168–171):
`(minutes // 30) * 200`. -/
def water_bonus (minutes : ℤ) : ℤ := (Int.fdiv minutes 30) * 200

/-- Embeds `UserProfile` (src/calorie_bot.py:51–74). -/
structure UserProfile where
  weight : ℚ
  height : ℤ
  age : ℤ
  gender : String
  activity_minutes : ℤ
  city : String
  temperature : Option ℚ
  water_consumed : ℤ
  calories_eaten : ℤ
  calories_burned : ℤ
  water_target : ℤ
  calorie_target : ℤ
  water_timeline : List (String × ℤ)
  calorie_timeline : List (String × ℤ)
  workout_timeline : List (String × ℤ)
deriving DecidableEq

/-- Embeds `init_timeline` (src/calorie_bot.py:87–94): seed each empty timeline with
a `(now, 0)` entry. -/
def init_timeline (p : UserProfile) (now : String) : UserProfile :=
  { p with
    water_timeline := if p.water_timeline = [] then p.water_timeline ++ [(now, 0)] else p.water_timeline
    calorie_timeline := if p.calorie_timeline = [] then p.calorie_timeline ++ [(now, 0)] else p.calorie_timeline
    workout_timeline := if p.workout_timeline = [] then p.workout_timeline ++ [(now, 0)] else p.workout_timeline }

/-- Embeds `finalize_profile` (src/calorie_bot.py:438–483): compute both targets,
build the profile with zeroed counters and empty timelines, then seed the
timelines via `init_timeline`. -/
def finalize_profile (weight : ℚ) (height age : ℤ) (gender : String)
    (activity : ℤ) (city : String) (temp : Option ℚ) (manual : Option ℤ)
    (now : String) : UserProfile :=
  let water_norm := calculate_water_norm weight activity temp
  let calorie_norm := calculate_calorie_norm weight height age gender activity manual
  init_timeline
    { weight := weight, height := height, age := age, gender := gender,
      activity_minutes := activity, city := city, temperature := temp,
      water_consumed := 0, calories_eaten := 0, calories_burned := 0,
      water_target := water_norm, calorie_target := calorie_norm,
      water_timeline := [], calorie_timeline := [], workout_timeline := [] } now

/-- Embeds `process_gender` (src/calorie_bot.py:348–358): strip and lowercase, then
classify by substring containment, male keywords checked first; `none` means
the state re-prompts. -/
def process_gender (text : String) : Option String :=
  let gender_text := pyLower (pyStrip text)
  if pyIn "муж" gender_text || pyIn "male" gender_text then some "male"
  else if pyIn "жен" gender_text || pyIn "female" gender_text then some "female"
  else none

/-- Embeds `cmd_drink` (src/calorie_bot.py:505–532), state transition part: `amount`
is the already-parsed `parse_number(parts[1])` (`none` when unparsable);
`not amount or amount <= 0 or amount > 3000` rejects without mutation,
otherwise the amount is added and the new total appended to the timeline. -/
def cmd_drink (p : UserProfile) (now : String) (amount : Option ℤ) : UserProfile :=
  match amount with
  | none => p
  | some a =>
    if a = 0 ∨ a ≤ 0 ∨ 3000 < a then p
    else
      { p with
        water_consumed := p.water_consumed + a
        water_timeline := p.water_timeline ++ [(now, p.water_consumed + a)] }

/-- The pending food entry stored by `cmd_eat` between the lookup and the
grams step (src/calorie_bot.py:568–571). -/
structure PendingFood where
  product_name : String
  kcal_per_100g : ℚ
deriving DecidableEq

/-- Embeds `process_food_grams` (src/calorie_bot.py:583–617), state transition part:
`grams` is the parsed input (`none` when unparsable); invalid grams keep the
profile and the pending entry; on success `int(kcal_per_100g * grams / 100)`
kcal are added, the new total appended, and the pending entry discarded. -/
def process_food_grams (p : UserProfile) (pending : PendingFood) (now : String)
    (grams : Option ℤ) : UserProfile × Option PendingFood :=
  match grams with
  | none => (p, some pending)
  | some g =>
    if g = 0 ∨ g ≤ 0 ∨ 2000 < g then (p, some pending)
    else
      let total_kcal : ℚ := pending.kcal_per_100g * (g : ℚ) / 100
      let eaten := p.calories_eaten + pyInt total_kcal
      ({ p with
          calories_eaten := eaten
          calorie_timeline := p.calorie_timeline ++ [(now, eaten)] },
       none)

/-- Embeds `cmd_train` (src/calorie_bot.py:621–664), state transition part:
`duration` is the parsed input; invalid duration rejects; on success the burn
is added to `calories_burned`, the water target grows by `water_bonus`, and
the new cumulative burn is appended to the workout timeline. -/
def cmd_train (p : UserProfile) (now : String) (exercise_type : String)
    (duration : Option ℤ) : UserProfile :=
  match duration with
  | none => p
  | some d =>
    if d = 0 ∨ d ≤ 0 ∨ 300 < d then p
    else
      let burned := calculate_burned exercise_type d p.weight
      let bonus := water_bonus d
      { p with
        calories_burned := p.calories_burned + burned
        water_target := p.water_target + bonus
        workout_timeline := p.workout_timeline ++ [(now, p.calories_burned + burned)] }

/-- Embeds `cmd_status` water percent (src/calorie_bot.py:675):
`min(int(water_consumed / water_target * 100), 100)`. -/
def water_percent (p : UserProfile) : ℤ :=
  min (pyInt ((p.water_consumed : ℚ) / (p.water_target : ℚ) * 100)) 100

/-- Embeds `cmd_status` calorie balance (src/calorie_bot.py:679). -/
def calorie_balance (p : UserProfile) : ℤ := p.calories_eaten - p.calories_burned

/-- Embeds `cmd_status` calorie percent (src/calorie_bot.py:680):
`min(int((calories_eaten - calories_burned) / calorie_target * 100), 100)`. -/
def calorie_percent (p : UserProfile) : ℤ :=
  min (pyInt ((calorie_balance p : ℚ) / (p.calorie_target : ℚ) * 100)) 100

/-- The three chart kinds `cmd_charts` can send. -/
inductive ChartKind
  | water
  | calories
  | burned
deriving DecidableEq

/-- Embeds `cmd_charts` (src/calorie_bot.py:738–792), observable behaviour: `none`
models the "insufficient data" text answer (sent when both the water and the
calorie timelines have fewer than 2 points — the workout timeline is not
consulted by that gate); otherwise `some` of the list of chart images
requested, in source order. -/
def cmd_charts (p : UserProfile) : Option (List ChartKind) :=
  if p.water_timeline.length < 2 ∧ p.calorie_timeline.length < 2 then none
  else some
    ((if 2 ≤ p.water_timeline.length then [ChartKind.water] else []) ++
     (if 2 ≤ p.calorie_timeline.length then [ChartKind.calories] else []) ++
     (if 2 ≤ p.workout_timeline.length then [ChartKind.burned] else []))

/-- Embeds `cmd_reset` (src/calorie_bot.py:867–892): zero the three counters and
reseed the three timelines; everything else is untouched. -/
def cmd_reset (p : UserProfile) (now : String) : UserProfile :=
  { p with
    water_consumed := 0
    calories_eaten := 0
    calories_burned := 0
    water_timeline := [(now, 0)]
    calorie_timeline := [(now, 0)]
    workout_timeline := [(now, 0)] }

/-! Claim-side comparison definition for C5. -/

/-- The heat bonus exactly as worded in the claim (for comparison with the
code's Python-truthiness version): 500 if the temperature is known and
exceeds 25°C, else 0. -/
def claimHeat : Option ℚ → ℤ
  | none => 0
  | some t => if 25 < t then 500 else 0

/-! Concrete fixture profiles used by the claim theorems below. -/

/-- A profile produced by a concrete successful setup run (weight 75 kg,
height 175 cm, age 25, male, 20 min activity, city Moscow, weather lookup
failed, no manual override), used to exhibit reachable ledger states. -/
def demoProfile : UserProfile :=
  finalize_profile 75 175 25 "male" 20 "Moscow" none none "09:00"

/-- A concrete profile whose water timeline has 2 points while the calorie
and workout timelines have the single seed entry. -/
def chartsProfile : UserProfile :=
  { weight := 75, height := 175, age := 25, gender := "male",
    activity_minutes := 20, city := "Moscow", temperature := none,
    water_consumed := 300, calories_eaten := 0, calories_burned := 0,
    water_target := 2250, calorie_target := 2068,
    water_timeline := [("09:00", 0), ("10:00", 300)],
    calorie_timeline := [("09:00", 0)], workout_timeline := [("09:00", 0)] }

theorem ratFloor_eq_intFloor (q : ℚ) : q.floor = ⌊q⌋ := by
  rw [Rat.floor_def' q, Rat.floor_def]

theorem pyInt_eq (q : ℚ) : pyInt q = if 0 ≤ q then ⌊q⌋ else ⌈q⌉ := by
  unfold pyInt
  rw [ratFloor_eq_intFloor, ratFloor_eq_intFloor]
  rcases le_or_lt 0 q with h | h
  · simp [h]
  · rw [if_neg (not_le.mpr h), if_neg (not_le.mpr h), ← Int.ceil_neg, neg_neg]

theorem pyInt_of_nonneg {q : ℚ} (h : 0 ≤ q) : pyInt q = ⌊q⌋ := by
  rw [pyInt_eq, if_pos h]

theorem pyInt_nonneg {q : ℚ} (h : 0 ≤ q) : 0 ≤ pyInt q := by
  rw [pyInt_of_nonneg h]; exact Int.floor_nonneg.mpr h

theorem pyInt_mono {q r : ℚ} (h : q ≤ r) : pyInt q ≤ pyInt r := by
  rcases le_or_lt 0 q with hq | hq
  · rw [pyInt_of_nonneg hq, pyInt_of_nonneg (hq.trans h)]
    exact Int.floor_mono h
  · rcases le_or_lt 0 r with hr | hr
    · rw [pyInt_eq, if_neg (not_le.mpr hq), pyInt_of_nonneg hr]
      calc ⌈q⌉ ≤ ⌈(0 : ℚ)⌉ := Int.ceil_mono hq.le
      _ = 0 := by simp
      _ ≤ ⌊r⌋ := Int.floor_nonneg.mpr hr
    · rw [pyInt_eq, if_neg (not_le.mpr hq), pyInt_eq, if_neg (not_le.mpr hr)]
      exact Int.ceil_mono h

theorem pyInt_add_int {q : ℚ} (n : ℤ) (h : 0 ≤ q) (hn : 0 ≤ n) :
    pyInt (q + n) = pyInt q + n := by
  have h2 : (0 : ℚ) ≤ q + n := by positivity
  rw [pyInt_of_nonneg h, pyInt_of_nonneg h2, Int.floor_add_int]

/-! ## Helper lemmas about the MET table -/

theorem lookup_snd_mem : ∀ (l : List (String × ℚ)) (a : String) (b : ℚ),
    List.lookup a l = some b → b ∈ l.map Prod.snd
  | [], _, _, h => by simp [List.lookup] at h
  | (k, v) :: es, a, b, h => by
    rw [List.lookup] at h
    cases hak : a == k
    · rw [hak] at h
      have := lookup_snd_mem es a b h
      simp only [List.map_cons, List.mem_cons]
      exact Or.inr this
    · rw [hak] at h
      simp at h
      simp [h]

theorem met_nonneg (s : String) : 0 ≤ (List.lookup s MET_VALUES).getD 7.0 := by
  rcases h : List.lookup s MET_VALUES with _ | v
  · norm_num
  · have hv := lookup_snd_mem _ _ _ h
    simp only [MET_VALUES, List.map_cons, List.map_nil, List.mem_cons,
      List.not_mem_nil, or_false] at hv
    rcases hv with h1 | h1 | h1 | h1 | h1 | h1 | h1 | h1 | h1 | h1 | h1 | h1 <;>
      subst h1 <;> norm_num

/-! ## C3: exercise burn -/

/-- C3 counterexample: `exercise_burn` is not linear in minutes.
At kind `"run"`, weight 75, the burn for 45 minutes is `int(562.5) = 562`,
but the burn for 90 = 2 × 45 minutes is `int(1125) = 1125 ≠ 2 × 562`.
(All intermediate values here are exactly representable, so the Python float
computation agrees with this rational model.) -/
theorem C3_counterexample :
    calculate_burned "run" 45 75 = 562 ∧
    calculate_burned "run" (2 * 45) 75 = 1125 ∧
    calculate_burned "run" (2 * 45) 75 ≠ 2 * calculate_burned "run" 45 75 := by
  have h : pyLower "run" = "run" := by decide
  have h1 : calculate_burned "run" 45 75 = 562 := by
    unfold calculate_burned
    rw [h]
    simp +decide [MET_VALUES, List.lookup]
    rw [pyInt_eq]
    norm_num
  have h2 : calculate_burned "run" (2 * 45) 75 = 1125 := by
    unfold calculate_burned
    rw [h]
    simp +decide [MET_VALUES, List.lookup]
    rw [pyInt_eq]
    norm_num
  refine ⟨h1, h2, ?_⟩
  rw [h1, h2]
  norm_num

/-- C3 amended: for every fixed kind and nonnegative weight,
`exercise_burn(kind, k×m, w)` is linear in minutes *before* the final integer
truncation; after truncation it satisfies
`k×burn(m) ≤ burn(k×m) ≤ k×burn(m) + (k−1)` for every integer `k ≥ 1` and
`m ≥ 0`.  For every kind not in the MET table (after case-insensitive
lookup), `exercise_burn = int(7.0 × weight × minutes/60)` exactly as the
claim states. -/
theorem C3_exercise_burn_amended :
    (∀ (kind : String) (w : ℚ) (m k : ℤ), 0 ≤ w → 0 ≤ m → 1 ≤ k →
      k * calculate_burned kind m w ≤ calculate_burned kind (k * m) w ∧
      calculate_burned kind (k * m) w ≤ k * calculate_burned kind m w + (k - 1)) ∧
    (∀ (kind : String) (m : ℤ) (w : ℚ),
      List.lookup (pyLower kind) MET_VALUES = none →
      calculate_burned kind m w = pyInt (7 * w * ((m : ℚ) / 60))) := by
  constructor
  · intro kind w m k hw hm hk
    set met := (List.lookup (pyLower kind) MET_VALUES).getD 7.0 with hmet
    have hmet0 : 0 ≤ met := met_nonneg _
    have hr0 : 0 ≤ met * w * ((m : ℚ) / 60) := by positivity
    have hk0 : (0 : ℚ) < (k : ℚ) := by exact_mod_cast lt_of_lt_of_le one_pos hk
    have hkr : met * w * (((k * m : ℤ) : ℚ) / 60) = (k : ℚ) * (met * w * ((m : ℚ) / 60)) := by
      push_cast
      ring
    have hb1 : calculate_burned kind m w = ⌊met * w * ((m : ℚ) / 60)⌋ := by
      unfold calculate_burned
      rw [← hmet, pyInt_of_nonneg hr0]
    have hb2 : calculate_burned kind (k * m) w = ⌊(k : ℚ) * (met * w * ((m : ℚ) / 60))⌋ := by
      unfold calculate_burned
      rw [← hmet, hkr, pyInt_of_nonneg (by positivity)]
    set r := met * w * ((m : ℚ) / 60) with hr
    constructor
    · rw [hb1, hb2, Int.le_floor]
      push_cast
      exact mul_le_mul_of_nonneg_left (Int.floor_le r) hk0.le
    · rw [hb1, hb2]
      have hlt : (k : ℚ) * r < ((k * ⌊r⌋ + k : ℤ) : ℚ) := by
        push_cast
        calc (k : ℚ) * r < (k : ℚ) * (⌊r⌋ + 1) :=
          mul_lt_mul_of_pos_left (Int.lt_floor_add_one r) hk0
        _ = (k : ℚ) * ⌊r⌋ + k := by ring
      have := Int.floor_lt.mpr hlt
      omega
  · intro kind m w hnone
    unfold calculate_burned
    rw [hnone]
    norm_num

/-- C3 witness: the amended bounds at kind `"run"`, weight 75, m = 45, k = 2,
and the unknown-kind fallback at kind `"rowing"`. -/
theorem C3_witness :
    ((0 : ℚ) ≤ 75 ∧ (0 : ℤ) ≤ 45 ∧ (1 : ℤ) ≤ 2 ∧
      2 * calculate_burned "run" 45 75 ≤ calculate_burned "run" (2 * 45) 75) ∧
    (List.lookup (pyLower "rowing") MET_VALUES = none ∧
      calculate_burned "rowing" 45 75 = pyInt (7 * 75 * (((45 : ℤ) : ℚ) / 60))) :=
  ⟨⟨by decide, by decide, by decide,
    (C3_exercise_burn_amended.1 "run" 75 45 2 (by decide) (by decide) (by decide)).1⟩,
   ⟨by decide,
    C3_exercise_burn_amended.2 "rowing" 45 75 (by decide)⟩⟩

/-! ## C4: calorie target -/

/-- C4 counterexample: the claim's concrete value is wrong. With weight 75,
height 175, age 25, male, activity 20 and no override, the Mifflin–St Jeor
base is `10×75 + 6.25×175 − 5×25 + 5 = 1723.75`, so the target is
`int(1723.75 × 1.2) = int(2068.5) = 2068`, not 2041 (the Python float
computation also yields 2068). -/
theorem C4_counterexample :
    calculate_calorie_norm 75 175 25 "male" 20 none = 2068 ∧ (2068 : ℤ) ≠ 2041 := by
  constructor
  · simp only [calculate_calorie_norm]
    norm_num
    rw [pyInt_eq]
    norm_num
  · decide

/-- C4 amended: `calorie_target` returns exactly the manual override whenever
one in the validated range [1000, 5000] is provided, independent of all other
inputs; with no override it returns
`floor((10×weight + 6.25×height − 5×age + (+5 if male, −161 otherwise)) × c)`
with `c = 1.20` for activity < 30, `1.375` for 30–59 and `1.55` for ≥ 60;
the concrete example weight 75, height 175, age 25, male, activity 20 yields
2068 (not 2041 as originally claimed). -/
theorem C4_calorie_target_amended (w : ℚ) (h a : ℤ) (g : String) (act : ℤ)
    (m : ℤ) (hm1 : 1000 ≤ m) (hm5 : m ≤ 5000) :
    calculate_calorie_norm w h a g act (some m) = m ∧
    calculate_calorie_norm w h a g act none =
      pyInt ((10 * w + 6.25 * (h : ℚ) - 5 * (a : ℚ) + (if g = "male" then 5 else -161)) *
        (if 60 ≤ act then 1.55 else if 30 ≤ act then 1.375 else 1.2)) ∧
    calculate_calorie_norm 75 175 25 "male" 20 none = 2068 := by
  refine ⟨?_, rfl, ?_⟩
  · have hm0 : m ≠ 0 := by omega
    simp [calculate_calorie_norm, hm0]
  · simp only [calculate_calorie_norm]
    norm_num
    rw [pyInt_eq]
    norm_num

/-- C4 witness: the amended theorem applied at override 2200 and the claim's
concrete no-override inputs. -/
theorem C4_witness :
    (1000 : ℤ) ≤ 2200 ∧ (2200 : ℤ) ≤ 5000 ∧
    calculate_calorie_norm 75 175 25 "male" 20 (some 2200) = 2200 ∧
    calculate_calorie_norm 75 175 25 "male" 20 none = 2068 :=
  ⟨by decide, by decide,
   (C4_calorie_target_amended 75 175 25 "male" 20 2200 (by decide) (by decide)).1,
   (C4_calorie_target_amended 75 175 25 "male" 20 2200 (by decide) (by decide)).2.2⟩

/-- Definitional unfolding of `calculate_water_norm` at a known temperature. -/
theorem calculate_water_norm_some (w : ℚ) (a : ℤ) (t : ℚ) :
    calculate_water_norm w a (some t)
      = pyInt (w * 30 + ((Int.fdiv a 30 * 500 : ℤ) : ℚ) +
          (((if t ≠ 0 ∧ 25 < t then 500 else 0 : ℤ)) : ℚ)) := rfl

/-- Definitional unfolding of `calculate_water_norm` at an unknown temperature. -/
theorem calculate_water_norm_none (w : ℚ) (a : ℤ) :
    calculate_water_norm w a none
      = pyInt (w * 30 + ((Int.fdiv a 30 * 500 : ℤ) : ℚ) + ((0 : ℤ) : ℚ)) := rfl

/-- C5 confirmed: for weight in [30, 300] and activity in [0, 500],
`hydration_target(w, a, temp) = int(w×30 + (a div 30)×500 + heat)` with
`heat = 500` iff the temperature is known and exceeds 25°C; the target is
non-decreasing in weight and in activity; and with all else fixed it
increases by exactly 500 when the temperature goes from ≤ 25°C (or unknown)
to > 25°C. -/
theorem C5_hydration_target (w w' : ℚ) (a a' : ℤ) (temp : Option ℚ)
    (hw : 30 ≤ w) (hw300 : w ≤ 300) (ha : 0 ≤ a) (ha500 : a ≤ 500)
    (hww : w ≤ w') (hw'300 : w' ≤ 300) (haa : a ≤ a') (ha'500 : a' ≤ 500) :
    calculate_water_norm w a temp
      = pyInt (w * 30 + ((Int.fdiv a 30 * 500 : ℤ) : ℚ) + ((claimHeat temp : ℤ) : ℚ)) ∧
    calculate_water_norm w a temp ≤ calculate_water_norm w' a temp ∧
    calculate_water_norm w a temp ≤ calculate_water_norm w a' temp ∧
    (∀ t' : ℚ, 25 < t' →
      calculate_water_norm w a (some t') = calculate_water_norm w a none + 500 ∧
      ∀ t : ℚ, t ≤ 25 →
        calculate_water_norm w a (some t') = calculate_water_norm w a (some t) + 500) := by
  have hbonus : ∀ b : ℤ, 0 ≤ b → (0 : ℤ) ≤ Int.fdiv b 30 * 500 := fun b hb =>
    mul_nonneg (Int.fdiv_nonneg hb (by norm_num)) (by norm_num)
  have hbase : ∀ x : ℚ, 30 ≤ x → (0 : ℚ) ≤ x * 30 + ((Int.fdiv a 30 * 500 : ℤ) : ℚ) := by
    intro x hx
    have h1 : (0 : ℚ) ≤ x * 30 := by nlinarith
    have h2 : (0 : ℚ) ≤ ((Int.fdiv a 30 * 500 : ℤ) : ℚ) := by
      exact_mod_cast hbonus a ha
    linarith
  have hheat : ∀ t : ℚ, (0 : ℤ) ≤ (if t ≠ 0 ∧ 25 < t then 500 else 0) := by
    intro t; split_ifs <;> norm_num
  refine ⟨?_, ?_, ?_, ?_⟩
  · cases temp with
    | none => rfl
    | some t =>
      rw [calculate_water_norm_some]
      have : (if t ≠ 0 ∧ 25 < t then (500 : ℤ) else 0) = claimHeat (some t) := by
        simp only [claimHeat]
        by_cases h25 : 25 < t
        · rw [if_pos ⟨ne_of_gt (lt_trans (by norm_num) h25), h25⟩, if_pos h25]
        · rw [if_neg (fun hc => h25 hc.2), if_neg h25]
      rw [this]
  · have hmul : w * 30 ≤ w' * 30 := mul_le_mul_of_nonneg_right hww (by norm_num)
    cases temp with
    | none =>
      rw [calculate_water_norm_none, calculate_water_norm_none]
      exact pyInt_mono (by linarith)
    | some t =>
      rw [calculate_water_norm_some, calculate_water_norm_some]
      exact pyInt_mono (by linarith)
  · have hfd : Int.fdiv a 30 ≤ Int.fdiv a' 30 := by
      rw [Int.fdiv_eq_ediv a (by norm_num), Int.fdiv_eq_ediv a' (by norm_num)]
      exact Int.ediv_le_ediv (by norm_num) haa
    have hbq : ((Int.fdiv a 30 * 500 : ℤ) : ℚ) ≤ ((Int.fdiv a' 30 * 500 : ℤ) : ℚ) := by
      exact_mod_cast mul_le_mul_of_nonneg_right hfd (by norm_num)
    cases temp with
    | none =>
      rw [calculate_water_norm_none, calculate_water_norm_none]
      exact pyInt_mono (by linarith)
    | some t =>
      rw [calculate_water_norm_some, calculate_water_norm_some]
      exact pyInt_mono (by linarith)
  · intro t' ht'
    have hne : t' ≠ 0 := ne_of_gt (lt_trans (by norm_num) ht')
    have key :
        pyInt (w * 30 + ((Int.fdiv a 30 * 500 : ℤ) : ℚ) + ((500 : ℤ) : ℚ))
          = pyInt (w * 30 + ((Int.fdiv a 30 * 500 : ℤ) : ℚ) + ((0 : ℤ) : ℚ)) + 500 := by
      rw [show ((0 : ℤ) : ℚ) = 0 by norm_num, add_zero]
      exact pyInt_add_int 500 (hbase w hw) (by norm_num)
    constructor
    · rw [calculate_water_norm_some, calculate_water_norm_none,
        if_pos ⟨hne, ht'⟩]
      exact key
    · intro t ht
      rw [calculate_water_norm_some, calculate_water_norm_some,
        if_pos ⟨hne, ht'⟩, if_neg (fun hc => absurd hc.2 (not_lt.mpr ht))]
      exact key

/-- C5 witness: the theorem applied at weight 75 ≤ 80, activity 45 ≤ 60,
temperature crossing from 20°C (and from unknown) to 30°C. -/
theorem C5_witness :
    (30 : ℚ) ≤ 75 ∧ (75 : ℚ) ≤ 300 ∧ (0 : ℤ) ≤ 45 ∧ (45 : ℤ) ≤ 500 ∧
    (75 : ℚ) ≤ 80 ∧ (80 : ℚ) ≤ 300 ∧ (45 : ℤ) ≤ 60 ∧ (60 : ℤ) ≤ 500 ∧
    (25 : ℚ) < 30 ∧ (20 : ℚ) ≤ 25 ∧
    calculate_water_norm 75 45 (some 20) ≤ calculate_water_norm 80 45 (some 20) ∧
    calculate_water_norm 75 45 (some 30) = calculate_water_norm 75 45 (some 20) + 500 :=
  ⟨by decide, by decide, by decide, by decide, by decide, by decide, by decide, by decide,
   by decide, by decide,
   (C5_hydration_target 75 80 45 60 (some 20) (by decide) (by decide) (by decide) (by decide)
     (by decide) (by decide) (by decide) (by decide)).2.1,
   (((C5_hydration_target 75 80 45 60 (some 20) (by decide) (by decide) (by decide) (by decide)
     (by decide) (by decide) (by decide) (by decide)).2.2.2 30 (by decide)).2 20 (by decide))⟩

/-! ## C6: record water -/

/-- C6 confirmed: `record_water(amount)` with `amount ∈ (0, 3000]` adds
exactly `amount` to water consumed and appends exactly one entry to the
water timeline whose value is the new total, leaving every other profile
field unchanged; an amount outside `(0, 3000]`, or an unparsable one
(`none`), leaves the profile unchanged. -/
theorem C6_record_water :
    (∀ (p : UserProfile) (now : String) (a : ℤ), 0 < a → a ≤ 3000 →
      (cmd_drink p now (some a)).water_consumed = p.water_consumed + a ∧
      (cmd_drink p now (some a)).water_timeline
        = p.water_timeline ++ [(now, p.water_consumed + a)] ∧
      (cmd_drink p now (some a)).water_timeline.length = p.water_timeline.length + 1 ∧
      ((cmd_drink p now (some a)).water_timeline).getLast?
        = some (now, (cmd_drink p now (some a)).water_consumed) ∧
      (cmd_drink p now (some a)).weight = p.weight ∧
      (cmd_drink p now (some a)).height = p.height ∧
      (cmd_drink p now (some a)).age = p.age ∧
      (cmd_drink p now (some a)).gender = p.gender ∧
      (cmd_drink p now (some a)).activity_minutes = p.activity_minutes ∧
      (cmd_drink p now (some a)).city = p.city ∧
      (cmd_drink p now (some a)).temperature = p.temperature ∧
      (cmd_drink p now (some a)).calories_eaten = p.calories_eaten ∧
      (cmd_drink p now (some a)).calories_burned = p.calories_burned ∧
      (cmd_drink p now (some a)).water_target = p.water_target ∧
      (cmd_drink p now (some a)).calorie_target = p.calorie_target ∧
      (cmd_drink p now (some a)).calorie_timeline = p.calorie_timeline ∧
      (cmd_drink p now (some a)).workout_timeline = p.workout_timeline) ∧
    (∀ (p : UserProfile) (now : String) (a : ℤ), a ≤ 0 ∨ 3000 < a →
      cmd_drink p now (some a) = p) ∧
    (∀ (p : UserProfile) (now : String), cmd_drink p now none = p) := by
  refine ⟨?_, ?_, ?_⟩
  · intro p now a ha0 ha3
    have hcond : ¬(a = 0 ∨ a ≤ 0 ∨ 3000 < a) := by omega
    have hdef : cmd_drink p now (some a)
        = { p with
            water_consumed := p.water_consumed + a
            water_timeline := p.water_timeline ++ [(now, p.water_consumed + a)] } := by
      simp only [cmd_drink, if_neg hcond]
    rw [hdef]
    exact ⟨rfl, rfl, by simp, by simp, rfl, rfl, rfl, rfl, rfl, rfl, rfl, rfl,
      rfl, rfl, rfl, rfl, rfl⟩
  · intro p now a h
    have hcond : a = 0 ∨ a ≤ 0 ∨ 3000 < a := by omega
    simp only [cmd_drink, if_pos hcond]
  · intro p now
    rfl

/-- C6 witness: recording 300 mL on a concrete profile, rejecting 4000 mL
and rejecting unparsable input. -/
theorem C6_witness :
    (0 : ℤ) < 300 ∧ (300 : ℤ) ≤ 3000 ∧
    ((4000 : ℤ) ≤ 0 ∨ (3000 : ℤ) < 4000) ∧
    (cmd_drink
        { weight := 75, height := 175, age := 25, gender := "male",
          activity_minutes := 20, city := "Moscow", temperature := none,
          water_consumed := 500, calories_eaten := 0, calories_burned := 0,
          water_target := 2250, calorie_target := 2068,
          water_timeline := [("09:00", 0), ("10:00", 500)],
          calorie_timeline := [("09:00", 0)], workout_timeline := [("09:00", 0)] }
        "11:00" (some 300)).water_consumed = 500 + 300 ∧
    cmd_drink
        { weight := 75, height := 175, age := 25, gender := "male",
          activity_minutes := 20, city := "Moscow", temperature := none,
          water_consumed := 500, calories_eaten := 0, calories_burned := 0,
          water_target := 2250, calorie_target := 2068,
          water_timeline := [("09:00", 0), ("10:00", 500)],
          calorie_timeline := [("09:00", 0)], workout_timeline := [("09:00", 0)] }
        "11:00" (some 4000)
      = { weight := 75, height := 175, age := 25, gender := "male",
          activity_minutes := 20, city := "Moscow", temperature := none,
          water_consumed := 500, calories_eaten := 0, calories_burned := 0,
          water_target := 2250, calorie_target := 2068,
          water_timeline := [("09:00", 0), ("10:00", 500)],
          calorie_timeline := [("09:00", 0)], workout_timeline := [("09:00", 0)] } :=
  ⟨by decide, by decide, by decide,
   (C6_record_water.1 _ "11:00" 300 (by decide) (by decide)).1,
   C6_record_water.2.1 _ "11:00" 4000 (by decide)⟩

/-! ## C7: record food grams -/

/-- C7 confirmed: with a pending food entry of nonnegative calorie density
and grams in `(0, 2000]`, submitting the grams adds exactly
`floor(kcal_per_100g × grams / 100)` to calories eaten, appends exactly one
calorie-timeline entry valued at the new total, discards the pending entry,
and leaves every other profile field unchanged; the claim's concrete
instance (89.0 kcal/100 g, 150 g) adds exactly 133 kcal. -/
theorem C7_record_food (p : UserProfile) (pending : PendingFood) (now : String)
    (g : ℤ) (hg0 : 0 < g) (hg2000 : g ≤ 2000) (hk : 0 ≤ pending.kcal_per_100g) :
    (process_food_grams p pending now (some g)).1.calories_eaten
      = p.calories_eaten + ⌊pending.kcal_per_100g * (g : ℚ) / 100⌋ ∧
    (process_food_grams p pending now (some g)).1.calorie_timeline
      = p.calorie_timeline
          ++ [(now, (process_food_grams p pending now (some g)).1.calories_eaten)] ∧
    (process_food_grams p pending now (some g)).1.calorie_timeline.length
      = p.calorie_timeline.length + 1 ∧
    (process_food_grams p pending now (some g)).2 = none ∧
    (process_food_grams p pending now (some g)).1.water_consumed = p.water_consumed ∧
    (process_food_grams p pending now (some g)).1.calories_burned = p.calories_burned ∧
    (process_food_grams p pending now (some g)).1.water_target = p.water_target ∧
    (process_food_grams p pending now (some g)).1.calorie_target = p.calorie_target ∧
    (process_food_grams p pending now (some g)).1.water_timeline = p.water_timeline ∧
    (process_food_grams p pending now (some g)).1.workout_timeline = p.workout_timeline ∧
    (process_food_grams p ⟨"Banana", 89⟩ now (some 150)).1.calories_eaten
      = p.calories_eaten + 133 := by
  have hcond : ¬(g = 0 ∨ g ≤ 0 ∨ 2000 < g) := by omega
  have hq : (0 : ℚ) ≤ pending.kcal_per_100g * (g : ℚ) / 100 := by
    have hg : (0 : ℚ) ≤ (g : ℚ) := by exact_mod_cast hg0.le
    positivity
  have heat : (process_food_grams p pending now (some g)).1.calories_eaten
      = p.calories_eaten + ⌊pending.kcal_per_100g * (g : ℚ) / 100⌋ := by
    simp only [process_food_grams, if_neg hcond]
    rw [pyInt_of_nonneg hq]
  have hconc : (process_food_grams p ⟨"Banana", 89⟩ now (some 150)).1.calories_eaten
      = p.calories_eaten + 133 := by
    have hc : ¬((150 : ℤ) = 0 ∨ (150 : ℤ) ≤ 0 ∨ (2000 : ℤ) < 150) := by omega
    simp only [process_food_grams, if_neg hc]
    have : pyInt ((89 : ℚ) * ((150 : ℤ) : ℚ) / 100) = 133 := by
      rw [pyInt_eq]
      norm_num
    rw [this]
  refine ⟨heat, ?_, ?_, ?_, ?_, ?_, ?_, ?_, ?_, ?_, hconc⟩ <;>
    simp only [process_food_grams, if_neg hcond] <;> simp

/-- C7 witness: the theorem at the claim's concrete instance — pending entry
("Banana", 89.0 kcal/100 g), 150 grams. -/
theorem C7_witness :
    (0 : ℤ) < 150 ∧ (150 : ℤ) ≤ 2000 ∧
    (0 : ℚ) ≤ (PendingFood.mk "Banana" 89).kcal_per_100g ∧
    (process_food_grams
        { weight := 75, height := 175, age := 25, gender := "male",
          activity_minutes := 20, city := "Moscow", temperature := none,
          water_consumed := 0, calories_eaten := 0, calories_burned := 0,
          water_target := 2250, calorie_target := 2068,
          water_timeline := [("09:00", 0)], calorie_timeline := [("09:00", 0)],
          workout_timeline := [("09:00", 0)] }
        (PendingFood.mk "Banana" 89) "12:00" (some 150)).1.calories_eaten
      = 0 + 133 :=
  ⟨by decide, by decide, by decide,
   (C7_record_food
      { weight := 75, height := 175, age := 25, gender := "male",
        activity_minutes := 20, city := "Moscow", temperature := none,
        water_consumed := 0, calories_eaten := 0, calories_burned := 0,
        water_target := 2250, calorie_target := 2068,
        water_timeline := [("09:00", 0)], calorie_timeline := [("09:00", 0)],
        workout_timeline := [("09:00", 0)] }
      (PendingFood.mk "Banana" 89) "12:00" 150
      (by decide) (by decide) (by decide)).2.2.2.2.2.2.2.2.2.2⟩

/-! ## C8: reset day -/

/-- C8 confirmed: `reset_day` zeroes all three daily counters, replaces each
timeline with a single `(now, 0)` entry, and leaves the water target, the
calorie target and every static attribute unchanged. -/
theorem C8_reset_day (p : UserProfile) (now : String) :
    (cmd_reset p now).water_consumed = 0 ∧
    (cmd_reset p now).calories_eaten = 0 ∧
    (cmd_reset p now).calories_burned = 0 ∧
    (cmd_reset p now).water_timeline = [(now, 0)] ∧
    (cmd_reset p now).calorie_timeline = [(now, 0)] ∧
    (cmd_reset p now).workout_timeline = [(now, 0)] ∧
    (cmd_reset p now).water_target = p.water_target ∧
    (cmd_reset p now).calorie_target = p.calorie_target ∧
    (cmd_reset p now).weight = p.weight ∧
    (cmd_reset p now).height = p.height ∧
    (cmd_reset p now).age = p.age ∧
    (cmd_reset p now).gender = p.gender ∧
    (cmd_reset p now).activity_minutes = p.activity_minutes ∧
    (cmd_reset p now).city = p.city ∧
    (cmd_reset p now).temperature = p.temperature :=
  ⟨rfl, rfl, rfl, rfl, rfl, rfl, rfl, rfl, rfl, rfl, rfl, rfl, rfl, rfl, rfl⟩

/-! ## C9: gender classification -/

/-- C9 confirmed: gender is decided by substring containment in a fixed
order — male keywords ("муж"/"male") are checked first on the stripped,
lowercased input, then female keywords ("жен"/"female"), otherwise the state
re-prompts; in particular the input "female" is classified as male because
"male" is a substring of "female". -/
theorem C9_gender_classification :
    (∀ text : String,
      process_gender text =
        (if pyIn "муж" (pyLower (pyStrip text)) || pyIn "male" (pyLower (pyStrip text))
          then some "male"
          else if pyIn "жен" (pyLower (pyStrip text)) || pyIn "female" (pyLower (pyStrip text))
          then some "female"
          else none)) ∧
    pyIn "male" (pyLower (pyStrip "female")) = true ∧
    process_gender "female" = some "male" ∧
    process_gender "Мужской" = some "male" ∧
    process_gender "Женский" = some "female" ∧
    process_gender "hello" = none :=
  ⟨fun _ => rfl, by decide, by decide, by decide, by decide, by decide⟩

/-! ## C10: numeric input parsing -/

/-- Evaluation of `calculate_burned` at the running-30-minutes example: `int(10×75×0.5)`. -/
theorem demo_burned_run30 : calculate_burned "бег" 30 75 = 375 := by
  have h : pyLower "бег" = "бег" := by decide
  unfold calculate_burned
  rw [h]
  simp +decide [MET_VALUES, List.lookup]
  rw [pyInt_eq]
  norm_num

/-- C1 counterexample: the claim fails on the calorie side. Starting from the
freshly set-up `demoProfile` (calorie target 2068) and logging a single
30-minute run (burn 375, nothing eaten), the reported calorie percent is
`min(int(-375/2068×100), 100) = -18`, which does not lie in [0, 100]. -/
theorem C1_counterexample :
    calorie_percent (cmd_train demoProfile "10:00" "бег" (some 30)) = -18 ∧
    calorie_percent (cmd_train demoProfile "10:00" "бег" (some 30)) < 0 := by
  have hcond : ¬((30 : ℤ) = 0 ∨ (30 : ℤ) ≤ 0 ∨ (300 : ℤ) < 30) := by decide
  have hdef : cmd_train demoProfile "10:00" "бег" (some 30)
      = { demoProfile with
          calories_burned := demoProfile.calories_burned
            + calculate_burned "бег" 30 demoProfile.weight
          water_target := demoProfile.water_target + water_bonus 30
          workout_timeline := demoProfile.workout_timeline
            ++ [("10:00", demoProfile.calories_burned
                  + calculate_burned "бег" 30 demoProfile.weight)] } := by
    simp only [cmd_train, if_neg hcond]
  have hweight : demoProfile.weight = 75 := rfl
  have heaten : demoProfile.calories_eaten = 0 := rfl
  have hburn0 : demoProfile.calories_burned = 0 := rfl
  have htarget : demoProfile.calorie_target = 2068 := by
    show calculate_calorie_norm 75 175 25 "male" 20 none = 2068
    simp only [calculate_calorie_norm]
    norm_num
    rw [pyInt_eq]
    norm_num
  have hbal : calorie_balance (cmd_train demoProfile "10:00" "бег" (some 30)) = -375 := by
    unfold calorie_balance
    rw [hdef]
    show demoProfile.calories_eaten
      - (demoProfile.calories_burned + calculate_burned "бег" 30 demoProfile.weight) = -375
    rw [heaten, hburn0, hweight, demo_burned_run30]
    decide
  have htarget2 : (cmd_train demoProfile "10:00" "бег" (some 30)).calorie_target = 2068 := by
    rw [hdef]
    exact htarget
  have hpy : pyInt ((-375 : ℚ) / 2068 * 100) = -18 := by
    rw [pyInt_eq, if_neg (by norm_num)]
    rw [show ((-375 : ℚ) / 2068 * 100) = -((9375 : ℚ) / 517) by norm_num, Int.ceil_neg]
    norm_num
  have hval : calorie_percent (cmd_train demoProfile "10:00" "бег" (some 30)) = -18 := by
    unfold calorie_percent
    rw [hbal, htarget2]
    rw [show (((-375 : ℤ) : ℚ) / ((2068 : ℤ) : ℚ) * 100) = ((-375 : ℚ) / 2068 * 100) by norm_num]
    rw [hpy]
    decide
  exact ⟨hval, by rw [hval]; decide⟩

/-- C1 amended: the water percent reported by `get_status` equals
`clamp(floor(consumed/target×100), 0, 100)` and always lies in [0, 100]; the
calorie percent equals `min(int(balance/target×100), 100)` — clamped above at
100 but *not* below at 0, so it is negative when calories burned sufficiently
exceed calories eaten; whenever the balance is nonnegative it, too, equals
the clamped formula and lies in [0, 100]. -/
theorem C1_status_percentages (p : UserProfile)
    (hwc : 0 ≤ p.water_consumed) (hwt : 0 < p.water_target)
    (hct : 0 < p.calorie_target) :
    (water_percent p
        = max 0 (min ⌊(p.water_consumed : ℚ) / (p.water_target : ℚ) * 100⌋ 100) ∧
      0 ≤ water_percent p ∧ water_percent p ≤ 100) ∧
    calorie_percent p ≤ 100 ∧
    (0 ≤ calorie_balance p →
      calorie_percent p
          = max 0 (min ⌊(calorie_balance p : ℚ) / (p.calorie_target : ℚ) * 100⌋ 100) ∧
      0 ≤ calorie_percent p) := by
  have hclamp : ∀ (num den : ℤ), 0 ≤ num → 0 < den →
      min (pyInt ((num : ℚ) / (den : ℚ) * 100)) 100
        = max 0 (min ⌊(num : ℚ) / (den : ℚ) * 100⌋ 100) ∧
      0 ≤ min (pyInt ((num : ℚ) / (den : ℚ) * 100)) 100 := by
    intro num den hnum hden
    have hq : (0 : ℚ) ≤ (num : ℚ) / (den : ℚ) * 100 := by
      have h1 : (0 : ℚ) ≤ (num : ℚ) := by exact_mod_cast hnum
      have h2 : (0 : ℚ) < (den : ℚ) := by exact_mod_cast hden
      positivity
    have hfl : 0 ≤ ⌊(num : ℚ) / (den : ℚ) * 100⌋ := Int.floor_nonneg.mpr hq
    have hmin : 0 ≤ min ⌊(num : ℚ) / (den : ℚ) * 100⌋ 100 := le_min hfl (by norm_num)
    rw [pyInt_of_nonneg hq]
    exact ⟨(max_eq_right hmin).symm, hmin⟩
  refine ⟨⟨?_, ?_, ?_⟩, ?_, ?_⟩
  · exact (hclamp p.water_consumed p.water_target hwc hwt).1
  · exact (hclamp p.water_consumed p.water_target hwc hwt).2
  · exact min_le_right _ _
  · exact min_le_right _ _
  · intro hbal
    exact ⟨(hclamp (calorie_balance p) p.calorie_target hbal hct).1,
           (hclamp (calorie_balance p) p.calorie_target hbal hct).2⟩

/-- C1 witness: the amended theorem applied to a concrete profile with
consumption above target (water) and a nonnegative calorie balance. -/
theorem C1_witness :
    (0 : ℤ) ≤ 2500 ∧ (0 : ℤ) < 2250 ∧ (0 : ℤ) < 2068 ∧
    (0 ≤ calorie_balance
      { weight := 75, height := 175, age := 25, gender := "male",
        activity_minutes := 20, city := "Moscow", temperature := none,
        water_consumed := 2500, calories_eaten := 600, calories_burned := 100,
        water_target := 2250, calorie_target := 2068,
        water_timeline := [("09:00", 0)], calorie_timeline := [("09:00", 0)],
        workout_timeline := [("09:00", 0)] }) ∧
    (0 ≤ water_percent
      { weight := 75, height := 175, age := 25, gender := "male",
        activity_minutes := 20, city := "Moscow", temperature := none,
        water_consumed := 2500, calories_eaten := 600, calories_burned := 100,
        water_target := 2250, calorie_target := 2068,
        water_timeline := [("09:00", 0)], calorie_timeline := [("09:00", 0)],
        workout_timeline := [("09:00", 0)] } ∧
     water_percent
      { weight := 75, height := 175, age := 25, gender := "male",
        activity_minutes := 20, city := "Moscow", temperature := none,
        water_consumed := 2500, calories_eaten := 600, calories_burned := 100,
        water_target := 2250, calorie_target := 2068,
        water_timeline := [("09:00", 0)], calorie_timeline := [("09:00", 0)],
        workout_timeline := [("09:00", 0)] } ≤ 100) :=
  ⟨by decide, by decide, by decide, by decide,
   (C1_status_percentages
      { weight := 75, height := 175, age := 25, gender := "male",
        activity_minutes := 20, city := "Moscow", temperature := none,
        water_consumed := 2500, calories_eaten := 600, calories_burned := 100,
        water_target := 2250, calorie_target := 2068,
        water_timeline := [("09:00", 0)], calorie_timeline := [("09:00", 0)],
        workout_timeline := [("09:00", 0)] }
      (by decide) (by decide) (by decide)).1.2⟩

/-! ## C2: charts -/

/-- C2 counterexample: starting from the freshly set-up `demoProfile` and
logging two workouts (and no water or food), the workout timeline has 3
points while the water and calorie timelines have their single seed entry.
The claim requires a workout chart in this state, but the code's gate only
inspects the water and calorie timelines, so the "insufficient data" message
is returned and no image is requested at all. -/
theorem C2_counterexample :
    cmd_charts (cmd_train (cmd_train demoProfile "10:00" "бег" (some 30))
        "11:00" "run" (some 30)) = none ∧
    2 ≤ (cmd_train (cmd_train demoProfile "10:00" "бег" (some 30))
        "11:00" "run" (some 30)).workout_timeline.length := by
  have hcond : ¬((30 : ℤ) = 0 ∨ (30 : ℤ) ≤ 0 ∨ (300 : ℤ) < 30) := by decide
  have hdef : ∀ (p : UserProfile) (now kind : String),
      cmd_train p now kind (some 30)
        = { p with
            calories_burned := p.calories_burned + calculate_burned kind 30 p.weight
            water_target := p.water_target + water_bonus 30
            workout_timeline := p.workout_timeline
              ++ [(now, p.calories_burned + calculate_burned kind 30 p.weight)] } := by
    intro p now kind
    simp only [cmd_train, if_neg hcond]
  have hwater : (cmd_train (cmd_train demoProfile "10:00" "бег" (some 30))
      "11:00" "run" (some 30)).water_timeline = [("09:00", 0)] := by
    rw [hdef, hdef]
    rfl
  have hcal : (cmd_train (cmd_train demoProfile "10:00" "бег" (some 30))
      "11:00" "run" (some 30)).calorie_timeline = [("09:00", 0)] := by
    rw [hdef, hdef]
    rfl
  have hwork : (cmd_train (cmd_train demoProfile "10:00" "бег" (some 30))
      "11:00" "run" (some 30)).workout_timeline.length = 3 := by
    rw [hdef, hdef]
    show (demoProfile.workout_timeline ++ [_] ++ [_]).length = 3
    have : demoProfile.workout_timeline = [("09:00", 0)] := rfl
    rw [this]
    simp
  constructor
  · unfold cmd_charts
    rw [if_pos]
    rw [hwater, hcal]
    exact ⟨by norm_num, by norm_num⟩
  · rw [hwork]
    norm_num

/-- C2 amended: the "insufficient data" message is returned iff *both* the
water and the calorie timelines have < 2 points (the workout timeline is not
consulted), and in that case no image is requested even if the workout
timeline has ≥ 2 points; otherwise exactly the timelines with ≥ 2 points are
rendered (water, calories eaten, calories burned). -/
theorem C2_charts_amended (p : UserProfile) :
    (cmd_charts p = none ↔
      p.water_timeline.length < 2 ∧ p.calorie_timeline.length < 2) ∧
    (∀ l : List ChartKind, cmd_charts p = some l →
      (ChartKind.water ∈ l ↔ 2 ≤ p.water_timeline.length) ∧
      (ChartKind.calories ∈ l ↔ 2 ≤ p.calorie_timeline.length) ∧
      (ChartKind.burned ∈ l ↔ 2 ≤ p.workout_timeline.length)) := by
  by_cases hgate : p.water_timeline.length < 2 ∧ p.calorie_timeline.length < 2
  · constructor
    · simp [cmd_charts, hgate]
    · intro l hl
      simp [cmd_charts, hgate] at hl
  · constructor
    · simp [cmd_charts, hgate]
    · intro l hl
      simp only [cmd_charts, if_neg hgate, Option.some.injEq] at hl
      subst hl
      by_cases h1 : 2 ≤ p.water_timeline.length <;>
        by_cases h2 : 2 ≤ p.calorie_timeline.length <;>
        by_cases h3 : 2 ≤ p.workout_timeline.length <;>
        simp [h1, h2, h3]

/-- C2 witness: the amended theorem applied to a profile whose water
timeline has 2 points and whose calorie and workout timelines have 1. -/
theorem C2_witness :
    cmd_charts chartsProfile = some [ChartKind.water] ∧
    (ChartKind.water ∈ [ChartKind.water] ↔ 2 ≤ chartsProfile.water_timeline.length) :=
  ⟨by decide,
   ((C2_charts_amended chartsProfile).2 [ChartKind.water] (by decide)).1⟩
